import Mathlib

/-!
# Verification of `src/openstack_cloud/openstack_manager.py`

A shallow embedding of the OpenStack image-build and instance-launch module of
the github-runner operator, together with theorems settling the specification
claims about it.

Python exceptions are modelled by the inductive `PyErr`; fallible code returns
`Except PyErr α`.  External effects (the GitHub client, the build subprocess,
the OpenStack SDK calls, randomness) are injected as explicit parameters, so
every control-flow decision made by the embedded code itself is taken from the
source.
-/

namespace OpenstackManager

/-- Exception values raised by the collaborators of this module (the GitHub
client, `execute_command`, the OpenStack SDK, jinja2, the Python runtime).
These are the exceptions the module's handlers inspect, and the only values
appearing as a `raise ... from exc` cause. -/
inductive PyBaseErr where
  /-- `errors.RunnerBinaryError`, raised by the GitHub client. -/
  | runnerBinaryError
  /-- `subprocess.SubprocessError`, raised by `execute_command`. -/
  | subprocessError
  /-- `openstack.exceptions.OpenStackCloudException` raised by SDK calls. -/
  | openStackCloud (msg : String)
  /-- `keystoneauth1.exceptions.http.Unauthorized`. -/
  | keystoneUnauthorized
  /-- Python `ValueError` (from tuple unpacking, for instance). -/
  | valueError (msg : String)
  /-- A jinja2 template error (malformed template, missing field). -/
  | templateError (msg : String)
  /-- Any other exception type. -/
  | otherError (msg : String)
deriving DecidableEq, Repr

/-- Python exception values flowing out of this module: either an exception
of a collaborator propagating through, or one of the module's own error
classes.  `raise X from exc` chains the original exception as the cause. -/
inductive PyErr where
  /-- A collaborator's exception propagating unmodified. -/
  | base (e : PyBaseErr)
  /-- `openstack_manager.ImageBuildError`. -/
  | imageBuildError (msg : String) (cause : Option PyBaseErr)
  /-- `openstack_manager.InstanceLaunchError`. -/
  | instanceLaunchError (msg : String) (cause : Option PyBaseErr)
  /-- `errors.OpenStackUnauthorizedError`. -/
  | openStackUnauthorizedError (msg : String) (cause : Option PyBaseErr)
deriving DecidableEq, Repr

/-- `charm_state.ProxyConfig`: optional triple of proxy endpoint strings.
A `none` field models a Python `None`. -/
structure ProxyConfig where
  http : Option String
  https : Option String
  no_proxy : Option String
deriving DecidableEq, Repr

/-- `github_type.RunnerApplication`: the download descriptor returned by the
GitHub client. -/
structure RunnerApplication where
  download_url : String
  architecture : String
  filename : String
deriving DecidableEq, Repr

/-- Module constant `IMAGE_NAME = "jammy"`. -/
def IMAGE_NAME : String := "jammy"

/-- Module constant `BUILD_OPENSTACK_IMAGE_SCRIPT_FILENAME`. -/
def BUILD_OPENSTACK_IMAGE_SCRIPT_FILENAME : String := "scripts/build-openstack-image.sh"

/-- `IMAGE_PATH_TMPL.format(architecture=arch)` for the module constant
`IMAGE_PATH_TMPL = "jammy-server-cloudimg-" + arch slot + "-compressed.img"`. -/
def IMAGE_PATH_TMPL_format (architecture : String) : String :=
  "jammy-server-cloudimg-" ++ architecture ++ "-compressed.img"

/-- Python `proxies.http if (proxies and proxies.http) else ""` (and likewise
for the other two fields): a falsy field (`None` or `""`) defaults to `""`.
Mapping `none ↦ ""` and `some s ↦ s` coincides, because the only falsy
string is `""` which already maps to itself. -/
def orEmptyStr : Option String → String
  | some s => s
  | none => ""

/-- The local `http_proxy` binding of `_build_image_command`. -/
def http_proxy_of (proxies : Option ProxyConfig) : String :=
  match proxies with
  | some p => orEmptyStr p.http
  | none => ""

/-- The local `https_proxy` binding of `_build_image_command`. -/
def https_proxy_of (proxies : Option ProxyConfig) : String :=
  match proxies with
  | some p => orEmptyStr p.https
  | none => ""

/-- The local `no_proxy` binding of `_build_image_command`. -/
def no_proxy_of (proxies : Option ProxyConfig) : String :=
  match proxies with
  | some p => orEmptyStr p.no_proxy
  | none => ""

/-- The dict comprehension building the `"default"` entry of the
`docker_proxy` descriptor: the three fixed key/value pairs, keeping only
those whose value is truthy (a non-empty string). -/
def dockerProxyDefault (proxies : Option ProxyConfig) : List (String × String) :=
  ([("httpProxy", http_proxy_of proxies),
    ("httpsProxy", https_proxy_of proxies),
    ("noProxy", no_proxy_of proxies)]).filter (fun kv => decide (kv.2 ≠ ""))

/-- `json.dumps` string escaping for one character (quote and backslash; the
proxy endpoint strings this module serialises contain no control
characters). -/
def jsonEscapeChar (c : Char) : String :=
  if c = '\\' then "\\\\" else if c = '"' then "\\\"" else String.singleton c

/-- `json.dumps` rendering of a string literal. -/
def jsonQuote (s : String) : String :=
  "\"" ++ String.join (s.toList.map jsonEscapeChar) ++ "\""

/-- `json.dumps` rendering of a flat string-valued dict (default
separators). -/
def jsonDumpsStringDict (kvs : List (String × String)) : String :=
  "\x7b" ++ String.intercalate ", "
    (kvs.map (fun kv => jsonQuote kv.1 ++ ": " ++ jsonQuote kv.2)) ++ "\x7d"

/-- The local `docker_client_proxy_content` binding:
`json.dumps({"proxies": {"default": <filtered pairs>}})`. -/
def docker_client_proxy_content (proxies : Option ProxyConfig) : String :=
  "\x7b\"proxies\": \x7b\"default\": "
    ++ jsonDumpsStringDict (dockerProxyDefault proxies) ++ "\x7d\x7d"

/-- `_build_image_command(runner_info, proxies)`.  The jinja2 rendering of
`systemd-docker-proxy.j2` (a template file outside this module) is injected
as `renderProxyServiceConf`. -/
def _build_image_command (runner_info : RunnerApplication)
    (proxies : Option ProxyConfig)
    (renderProxyServiceConf : Option ProxyConfig → String) : List String :=
  [ "/usr/bin/bash",
    BUILD_OPENSTACK_IMAGE_SCRIPT_FILENAME,
    runner_info.download_url,
    http_proxy_of proxies,
    https_proxy_of proxies,
    no_proxy_of proxies,
    renderProxyServiceConf proxies,
    docker_client_proxy_content proxies ]

/-- An entry of the OpenStack image catalog: internal id plus display name.
The cloud allows several images to share a name while differing in id. -/
structure Image where
  id : Nat
  name : String
deriving DecidableEq, Repr

/-- `conn.search_images(name_or_id=IMAGE_NAME)`: the catalog entries whose
display name matches (ids here are numeric, so only names can match). -/
def search_images (catalog : List Image) (name : String) : List Image :=
  catalog.filter (fun img => decide (img.name = name))

/-- `_create_connection(cloud_config)`: select the first-listed cloud profile
name; the outcome of `openstack.connect` on it is injected via `connect`.
An empty profile list makes `clouds[0]` raise `IndexError`. -/
def _create_connection (clouds : List String)
    (connect : String → Except PyErr Unit) : Except PyErr Unit :=
  match clouds with
  | [] => .error (.base (.otherError "IndexError: list index out of range"))
  | c :: _ => connect c

/-- The profile name `_create_connection` passes to `openstack.connect`. -/
def _create_connection_cloud_name (clouds : List String) : Option String :=
  clouds.head?

/-- `_create_connection` logs its multiple-clouds warning exactly when more
than one profile is listed (and then still proceeds). -/
def _create_connection_warns (clouds : List String) : Bool :=
  decide (clouds.length > 1)

/-- `list_projects(cloud_config)`.  The connection outcome and the outcome of
`conn.list_projects()` are injected; only the latter sits inside the
`try` block whose handler catches `keystoneauth1...Unauthorized`. -/
def list_projects (clouds : List String)
    (connect : String → Except PyErr Unit)
    (projectsOutcome : Except PyErr (List String)) : Except PyErr (List String) :=
  match _create_connection clouds connect with
  | .error e => .error e
  | .ok _ =>
    match projectsOutcome with
    | .error (.base .keystoneUnauthorized) =>
      .error (.openStackUnauthorizedError "Unauthorized to connect to OpenStack."
        (some .keystoneUnauthorized))
    | r => r

/-- The `for existing_image in conn.search_images(...)` loop of `build_image`:
delete each matched image by id (outcome injected via `deleteResult`: the
SDK call may raise, or report `False` for a failed deletion), raising
`ImageBuildError` on the first reported failure.  A successful deletion
removes the id from the catalog. -/
def deleteLoop (deleteResult : Nat → Except PyErr Bool) :
    List Image → List Image → Except PyErr (List Image)
  | catalog, [] => .ok catalog
  | catalog, img :: rest =>
    match deleteResult img.id with
    | .error e => .error e
    | .ok true => deleteLoop deleteResult (catalog.filter (fun i => decide (i.id ≠ img.id))) rest
    | .ok false => .error (.imageBuildError "Failed to delete duplicate image on Openstack." none)

/-- The two-way architecture mapping of `build_image`:
`"amd64" if runner_application["architecture"] == "x64" else "arm64"`. -/
def archBucket (architecture : String) : String :=
  if architecture = "x64" then "amd64" else "arm64"

/-- The body of the third `try` block of `build_image` (connect, scan for
duplicates, delete them, create the new image).  On success it returns the
new catalog, the created image and the filename handed to
`conn.create_image`. -/
def cloudPhase (connOutcome : Except PyErr Unit) (catalog : List Image)
    (deleteResult : Nat → Except PyErr Bool) (createResult : Except PyErr Nat)
    (architecture : String) : Except PyErr (List Image × Image × String) :=
  match connOutcome with
  | .error e => .error e
  | .ok _ =>
    match deleteLoop deleteResult catalog (search_images catalog IMAGE_NAME) with
    | .error e => .error e
    | .ok cleaned =>
      match createResult with
      | .error e => .error e
      | .ok newId =>
        .ok (⟨newId, IMAGE_NAME⟩ :: cleaned, ⟨newId, IMAGE_NAME⟩,
          IMAGE_PATH_TMPL_format (archBucket architecture))

/-- The `except OpenStackCloudException` handler wrapping the cloud phase of
`build_image`: only `OpenStackCloudException` is re-raised as
`ImageBuildError("Failed to upload image.")`; every other exception —
including the `ImageBuildError` raised for a duplicate — propagates. -/
def wrapUploadError (r : Except PyErr (List Image × Image × String)) :
    Except PyErr (List Image × Image × String) :=
  match r with
  | .error (.base (.openStackCloud m)) =>
    .error (.imageBuildError "Failed to upload image." (some (.openStackCloud m)))
  | r => r

/-- `build_image(arch, cloud_config, github_client, path, proxies)`.
The GitHub client call, the build subprocess and the SDK calls are injected
outcomes; the catalog is the pre-existing image-catalog state.  On success
the returned triple is the resulting catalog, the created image, and the
filename the image was created from. -/
def build_image (getRunnerApp : Except PyErr RunnerApplication)
    (execCmd : Except PyErr Unit)
    (connOutcome : Except PyErr Unit) (catalog : List Image)
    (deleteResult : Nat → Except PyErr Bool) (createResult : Except PyErr Nat) :
    Except PyErr (List Image × Image × String) :=
  match getRunnerApp with
  | .error (.base .runnerBinaryError) =>
    .error (.imageBuildError "Failed to fetch runner application." (some .runnerBinaryError))
  | .error e => .error e
  | .ok runnerApp =>
    match execCmd with
    | .error (.base .subprocessError) =>
      .error (.imageBuildError "Failed to build image." (some .subprocessError))
    | .error e => .error e
    | .ok _ =>
      wrapUploadError
        (cloudPhase connOutcome catalog deleteResult createResult runnerApp.architecture)

/-- `dataclass InstanceConfig` (the GitHub path is kept as its string form,
the image as the catalog entry). -/
structure InstanceConfig where
  name : String
  labels : List String
  registration_token : String
  github_path : String
  openstack_image : Image
deriving DecidableEq, Repr

/-- Split a character list at the LAST occurrence of `sep`: Python's
`s.rsplit(sep, 1)` when it yields two parts; `none` when `sep` does not
occur. -/
def rsplitLast (sep : Char) : List Char → Option (List Char × List Char)
  | [] => none
  | c :: rest =>
    match rsplitLast sep rest with
    | some (a, b) => some (c :: a, b)
    | none => if c = sep then some ([], rest) else none

/-- `unit_name.rsplit("/", 1)` unpacked into two names: `some` of the parts
around the last separator, or `none` when unpacking would raise
`ValueError` because the separator is absent. -/
def rsplit1 (sep : Char) (s : String) : Option (String × String) :=
  (rsplitLast sep s.toList).map (fun p => (String.mk p.1, String.mk p.2))

/-- One lowercase hex digit, as produced by `secrets.token_hex`. -/
def hexDigit (n : Nat) : Char :=
  if n < 10 then Char.ofNat (48 + n) else Char.ofNat (87 + n)

/-- `secrets.token_hex(nbytes)` over an injected random byte sequence: each
byte renders as two lowercase hex digits. -/
def token_hex (randomBytes : List Nat) : String :=
  String.mk (randomBytes.flatMap (fun b => [hexDigit (b % 256 / 16), hexDigit (b % 16)]))

/-- `create_instance_config(unit_name, openstack_image, path, github_client)`.
The randomness of `secrets.token_hex(12)` is injected as `randomBytes` and
the GitHub registration-token call as `tokenOutcome`.  The `rsplit`
unpacking happens before the GitHub client is consulted. -/
def create_instance_config (unit_name : String) (openstack_image : Image)
    (path : String) (randomBytes : List Nat)
    (tokenOutcome : Except PyErr String) : Except PyErr InstanceConfig :=
  match rsplit1 '/' unit_name with
  | none => .error (.base (.valueError "not enough values to unpack (expected 2, got 1)"))
  | some (app_name, unit_num) =>
    match tokenOutcome with
    | .error e => .error e
    | .ok tok =>
      .ok { name := app_name ++ "-" ++ unit_num ++ "-" ++ token_hex randomBytes,
            labels := [app_name, "jammy"],
            registration_token := tok,
            github_path := path,
            openstack_image := openstack_image }

/-- `charm_state.SSHDebugConnection`: a reachable debug-tunnel endpoint. -/
structure SSHDebugConnection where
  host : String
  port : Nat
deriving DecidableEq, Repr

/-- The `ssh_debug_info` argument of the `env.j2` rendering in
`create_instance`:
`secrets.choice(ssh_debug_connections) if ssh_debug_connections else None`.
A falsy value (`None` or `[]`) yields `None`; otherwise `secrets.choice`
draws one member, modelled by the injected random index `pick` reduced
modulo the length. -/
def choose_ssh_debug_info (ssh_debug_connections : Option (List SSHDebugConnection))
    (pick : Nat) : Option SSHDebugConnection :=
  match ssh_debug_connections with
  | none => none
  | some [] => none
  | some (c :: cs) => (c :: cs).get ⟨pick % (c :: cs).length, Nat.mod_lt _ (Nat.succ_pos _)⟩

/-- The body of `create_instance` (a single attempt, before the `retry`
decorator is applied).  The two jinja2 renderings happen first, outside any
`try`; the connection and `conn.create_server` sit inside the `try` whose
handler catches `OpenStackCloudException`.  `render` is the injected outcome
of rendering `env.j2` + `openstack-userdata.sh.j2` (templates outside this
module), producing the user-data string; `createServer` the injected SDK
outcome, returning the new server's id. -/
def create_instance_once (render : Except PyErr String)
    (connOutcome : Except PyErr Unit)
    (createServer : String → Except PyErr Nat) : Except PyErr Nat :=
  match render with
  | .error e => .error e
  | .ok userdata =>
    match
      ((match connOutcome with
        | .error e => .error e
        | .ok _ => createServer userdata) : Except PyErr Nat) with
    | .error (.base (.openStackCloud m)) =>
      .error (.instanceLaunchError "Failed to launch instance." (some (.openStackCloud m)))
    | r => r

/-- Modelled from the spec: the `retry` decorator of `utilities.py`, which is
not part of this module's sources.  Per the spec it re-invokes the wrapped
operation on any raised error until it succeeds or `tries` attempts are
exhausted, sleeping `min(delay * backoff^(attempt-1), maxDelay)` between
attempts, and on exhaustion re-raises the last error unmodified.
`retryGo body attempt fuel` runs attempts `attempt, attempt+1, ...` with
`fuel` attempts remaining in total; it returns the final outcome together
with the list of sleeps performed between attempts. -/
def retryGo (delay maxDelay backoff : Nat) (body : Nat → Except PyErr Nat) :
    Nat → Nat → Except PyErr Nat × List Nat
  | _, 0 => (.error (.base (.otherError "no attempt made")), [])
  | attempt, 1 => (body attempt, [])
  | attempt, Nat.succ fuel =>
    match body attempt with
    | .ok a => (.ok a, [])
    | .error _ =>
      let s := min (delay * backoff ^ (attempt - 1)) maxDelay
      let r := retryGo delay maxDelay backoff body (attempt + 1) fuel
      (r.1, s :: r.2)

/-- Modelled from the spec: a call of an operation wrapped by
`@retry(tries, delay, max_delay, backoff)`, starting at attempt 1. -/
def retry_call (tries delay maxDelay backoff : Nat)
    (body : Nat → Except PyErr Nat) : Except PyErr Nat × List Nat :=
  retryGo delay maxDelay backoff body 1 tries

/-- `create_instance` as exposed: its body wrapped by
`@retry(tries=5, delay=5, max_delay=60, backoff=2)`.  `attempts k` is the
injected outcome of the k-th execution of the body. -/
def create_instance_retried (attempts : Nat → Except PyErr Nat) :
    Except PyErr Nat × List Nat :=
  retry_call 5 5 60 2 attempts

/-- Whether an exception value is an `errors.OpenStackUnauthorizedError`. -/
def isUnauthorizedErr : PyErr → Bool
  | .openStackUnauthorizedError _ _ => true
  | _ => false

/-- The lowercase hexadecimal alphabet `secrets.token_hex` draws from. -/
def hexChars : List Char := "0123456789abcdef".toList

/-! ## Helper lemmas -/

theorem wrapUploadError_ok_iff (r : Except PyErr (List Image × Image × String))
    (v : List Image × Image × String) : wrapUploadError r = .ok v ↔ r = .ok v := by
  cases r with
  | ok w => simp [wrapUploadError]
  | error e =>
    cases e with
    | base b => cases b <;> simp [wrapUploadError]
    | imageBuildError m c => simp [wrapUploadError]
    | instanceLaunchError m c => simp [wrapUploadError]
    | openStackUnauthorizedError m c => simp [wrapUploadError]

theorem cloudPhase_ok (connOutcome : Except PyErr Unit) (catalog : List Image)
    (deleteResult : Nat → Except PyErr Bool) (createResult : Except PyErr Nat)
    (architecture : String) (cat : List Image) (img : Image) (fname : String)
    (h : cloudPhase connOutcome catalog deleteResult createResult architecture =
      .ok (cat, img, fname)) :
    connOutcome = .ok () ∧
    ∃ cleaned newId,
      deleteLoop deleteResult catalog (search_images catalog IMAGE_NAME) = .ok cleaned ∧
      createResult = .ok newId ∧
      cat = ⟨newId, IMAGE_NAME⟩ :: cleaned ∧ img = ⟨newId, IMAGE_NAME⟩ ∧
      fname = IMAGE_PATH_TMPL_format (archBucket architecture) := by
  cases connOutcome with
  | error e => simp [cloudPhase] at h
  | ok u =>
    cases u
    refine ⟨rfl, ?_⟩
    rcases hdel : deleteLoop deleteResult catalog (search_images catalog IMAGE_NAME) with e | cleaned
    · simp [cloudPhase, hdel] at h
    · cases createResult with
      | error e => simp [cloudPhase, hdel] at h
      | ok newId =>
        refine ⟨cleaned, newId, rfl, rfl, ?_⟩
        simp [cloudPhase, hdel] at h
        exact ⟨h.1.symm, h.2.1.symm, h.2.2.symm⟩

theorem build_image_ok (app : RunnerApplication) (execCmd connOutcome : Except PyErr Unit)
    (catalog : List Image) (deleteResult : Nat → Except PyErr Bool)
    (createResult : Except PyErr Nat) (cat : List Image) (img : Image) (fname : String)
    (h : build_image (.ok app) execCmd connOutcome catalog deleteResult createResult =
      .ok (cat, img, fname)) :
    execCmd = .ok () ∧
    cloudPhase connOutcome catalog deleteResult createResult app.architecture =
      .ok (cat, img, fname) := by
  cases execCmd with
  | error e =>
    cases e with
    | base b => cases b <;> simp [build_image] at h
    | imageBuildError m c => simp [build_image] at h
    | instanceLaunchError m c => simp [build_image] at h
    | openStackUnauthorizedError m c => simp [build_image] at h
  | ok u =>
    cases u
    exact ⟨rfl, (wrapUploadError_ok_iff _ _).mp h⟩

theorem deleteLoop_ok (deleteResult : Nat → Except PyErr Bool) :
    ∀ (ms catalog cleaned : List Image),
    deleteLoop deleteResult catalog ms = .ok cleaned →
    (∀ m ∈ ms, deleteResult m.id = .ok true) ∧
    (∀ i ∈ cleaned, i ∈ catalog ∧ ∀ m ∈ ms, i.id ≠ m.id) := by
  intro ms
  induction ms with
  | nil =>
    intro catalog cleaned h
    simp [deleteLoop] at h
    subst h
    exact ⟨by simp, fun i hi => ⟨hi, by simp⟩⟩
  | cons m rest ih =>
    intro catalog cleaned h
    rcases hd : deleteResult m.id with e | b
    · simp [deleteLoop, hd] at h
    · cases b with
      | false => simp [deleteLoop, hd] at h
      | true =>
        simp only [deleteLoop, hd] at h
        obtain ⟨h1, h2⟩ := ih _ _ h
        refine ⟨?_, ?_⟩
        · intro m' hm'
          rcases List.mem_cons.mp hm' with rfl | hr
          · exact hd
          · exact h1 m' hr
        · intro i hi
          obtain ⟨hiF, hrest⟩ := h2 i hi
          rw [List.mem_filter] at hiF
          obtain ⟨hicat, hneq⟩ := hiF
          refine ⟨hicat, ?_⟩
          intro m' hm'
          rcases List.mem_cons.mp hm' with rfl | hr
          · simpa using hneq
          · exact hrest m' hr

theorem deleteLoop_fail (deleteResult : Nat → Except PyErr Bool) :
    ∀ (ms catalog : List Image),
    (∀ m ∈ ms, deleteResult m.id = .ok true ∨ deleteResult m.id = .ok false) →
    (∃ m ∈ ms, deleteResult m.id = .ok false) →
    deleteLoop deleteResult catalog ms =
      .error (.imageBuildError "Failed to delete duplicate image on Openstack." none) := by
  intro ms
  induction ms with
  | nil =>
    intro catalog _ hex
    simp at hex
  | cons m rest ih =>
    intro catalog hall hex
    rcases hall m (List.mem_cons_self m rest) with hT | hF
    · simp only [deleteLoop, hT]
      apply ih
      · intro m' hm'
        exact hall m' (List.mem_cons_of_mem _ hm')
      · obtain ⟨m', hm', hfm'⟩ := hex
        rcases List.mem_cons.mp hm' with rfl | hr
        · rw [hT] at hfm'
          simp at hfm'
        · exact ⟨m', hr, hfm'⟩
    · simp only [deleteLoop, hF]

/-! ## Claim theorems -/

/-- C9: for every runner application and proxy configuration, the build
invocation constructed by `_build_image_command` is the bash invocation of
the build script followed by exactly the positional arguments download URL,
httpProxy, httpsProxy, noProxy, the rendered proxy-service configuration
document and the rendered proxy JSON descriptor, with each absent proxy
field defaulted to the empty string. -/
theorem C9_build_image_command_layout (runner_info : RunnerApplication)
    (proxies : Option ProxyConfig)
    (renderProxyServiceConf : Option ProxyConfig → String) :
    _build_image_command runner_info proxies renderProxyServiceConf =
      ["/usr/bin/bash", BUILD_OPENSTACK_IMAGE_SCRIPT_FILENAME,
       runner_info.download_url,
       http_proxy_of proxies, https_proxy_of proxies, no_proxy_of proxies,
       renderProxyServiceConf proxies,
       docker_client_proxy_content proxies] ∧
    http_proxy_of none = "" ∧ https_proxy_of none = "" ∧ no_proxy_of none = "" ∧
    (∀ p : ProxyConfig, p.http = none → http_proxy_of (some p) = "") ∧
    (∀ p : ProxyConfig, p.https = none → https_proxy_of (some p) = "") ∧
    (∀ p : ProxyConfig, p.no_proxy = none → no_proxy_of (some p) = "") := by
  refine ⟨rfl, rfl, rfl, rfl, ?_, ?_, ?_⟩ <;>
    intro p h <;>
    simp [http_proxy_of, https_proxy_of, no_proxy_of, h, orEmptyStr]

/-- C9 witness: the command layout at a concrete runner application with no
proxy configured. -/
theorem C9_witness :
    _build_image_command ⟨"http://dl/runner.tgz", "x64", "runner.tgz"⟩ none
        (fun _ => "proxy-conf") =
      ["/usr/bin/bash", BUILD_OPENSTACK_IMAGE_SCRIPT_FILENAME,
       "http://dl/runner.tgz", "", "", "", "proxy-conf",
       docker_client_proxy_content none] ∧
    http_proxy_of (some ⟨none, some "https://p", none⟩) = "" := by
  have h := C9_build_image_command_layout ⟨"http://dl/runner.tgz", "x64", "runner.tgz"⟩ none
    (fun _ => "proxy-conf")
  exact ⟨h.1, h.2.2.2.2.1 ⟨none, some "https://p", none⟩ rfl⟩

/-- C7: when the GitHub client call raises `RunnerBinaryError`, `build_image`
raises `ImageBuildError("Failed to fetch runner application.")` with the
original error as the cause, whatever the build subprocess and cloud would
have done (no later step is attempted). -/
theorem C7_fetch_failure_wrapped (execCmd connOutcome : Except PyErr Unit)
    (catalog : List Image) (deleteResult : Nat → Except PyErr Bool)
    (createResult : Except PyErr Nat) :
    build_image (.error (.base .runnerBinaryError)) execCmd connOutcome catalog
        deleteResult createResult =
      .error (.imageBuildError "Failed to fetch runner application."
        (some .runnerBinaryError)) := rfl

/-- C8: the debug endpoint handed to the environment rendering of
`create_instance` is `none` for an absent or empty candidate list, the unique
candidate for a singleton list, always a member of the list for any list, and
for more than one candidate it varies with the random draw. -/
theorem C8_ssh_debug_selection :
    (∀ pick, choose_ssh_debug_info none pick = none) ∧
    (∀ pick, choose_ssh_debug_info (some []) pick = none) ∧
    (∀ (c : SSHDebugConnection) (pick : Nat),
      choose_ssh_debug_info (some [c]) pick = some c) ∧
    (∀ (l : List SSHDebugConnection) (pick : Nat), l ≠ [] →
      ∃ c ∈ l, choose_ssh_debug_info (some l) pick = some c) ∧
    (∀ a b : SSHDebugConnection, a ≠ b →
      choose_ssh_debug_info (some [a, b]) 0 ≠ choose_ssh_debug_info (some [a, b]) 1) := by
  refine ⟨fun _ => rfl, fun _ => rfl, ?_, ?_, ?_⟩
  · intro c pick
    simp [choose_ssh_debug_info]
  · intro l pick hl
    cases l with
    | nil => exact absurd rfl hl
    | cons c cs =>
      exact ⟨_, List.get_mem _ _ _, rfl⟩
  · intro a b hab
    simp [choose_ssh_debug_info]
    exact hab

/-- C8 witness: the selection at concrete candidate lists. -/
theorem C8_witness :
    choose_ssh_debug_info (some [⟨"tmate.io", 22⟩]) 7 = some ⟨"tmate.io", 22⟩ ∧
    choose_ssh_debug_info (some [⟨"a", 1⟩, ⟨"b", 2⟩]) 0 ≠
      choose_ssh_debug_info (some [⟨"a", 1⟩, ⟨"b", 2⟩]) 1 := by
  refine ⟨C8_ssh_debug_selection.2.2.1 ⟨"tmate.io", 22⟩ 7, ?_⟩
  exact C8_ssh_debug_selection.2.2.2.2 ⟨"a", 1⟩ ⟨"b", 2⟩ (by decide)

/-- C4: for every proxy configuration (including an absent one and any subset
of empty or absent fields), the `"default"` entry of the proxy JSON
descriptor holds exactly the keys among httpProxy, httpsProxy, noProxy whose
proxy field is non-empty, each mapped to that field's value; empty or absent
fields never appear. -/
theorem C4_proxy_json_keys (proxies : Option ProxyConfig) (k v : String) :
    (k, v) ∈ dockerProxyDefault proxies ↔
      (((k = "httpProxy" ∧ v = http_proxy_of proxies) ∨
        (k = "httpsProxy" ∧ v = https_proxy_of proxies) ∨
        (k = "noProxy" ∧ v = no_proxy_of proxies)) ∧ v ≠ "") := by
  simp [dockerProxyDefault, List.mem_filter, Prod.ext_iff]

/-- C4 witness: with only the http field set, the descriptor holds exactly
the httpProxy pair. -/
theorem C4_witness :
    ("httpProxy", "http://proxy:3128") ∈
      dockerProxyDefault (some ⟨some "http://proxy:3128", none, some ""⟩) ∧
    dockerProxyDefault (some ⟨some "http://proxy:3128", none, some ""⟩) =
      [("httpProxy", "http://proxy:3128")] := by
  refine ⟨(C4_proxy_json_keys _ _ _).mpr ⟨Or.inl ⟨rfl, rfl⟩, by decide⟩, by decide⟩

/-- C3: the image-file name used by `build_image` follows the fixed two-way
architecture mapping — `"x64"` yields the amd64 file name, every other value
the arm64 file name — and a successful build always creates the image under
the canonical name `"jammy"` from the file named for the runner
application's architecture. -/
theorem C3_architecture_mapping :
    IMAGE_PATH_TMPL_format (archBucket "x64") =
      "jammy-server-cloudimg-amd64-compressed.img" ∧
    (∀ a : String, a ≠ "x64" →
      IMAGE_PATH_TMPL_format (archBucket a) =
        "jammy-server-cloudimg-arm64-compressed.img") ∧
    IMAGE_NAME = "jammy" ∧
    (∀ (app : RunnerApplication) (execCmd connOutcome : Except PyErr Unit)
        (catalog : List Image) (deleteResult : Nat → Except PyErr Bool)
        (createResult : Except PyErr Nat) (cat : List Image) (img : Image)
        (fname : String),
      build_image (.ok app) execCmd connOutcome catalog deleteResult createResult =
        .ok (cat, img, fname) →
      img.name = "jammy" ∧
      fname = IMAGE_PATH_TMPL_format (archBucket app.architecture)) := by
  refine ⟨rfl, ?_, rfl, ?_⟩
  · intro a ha
    simp [archBucket, ha, IMAGE_PATH_TMPL_format]
  · intro app execCmd connOutcome catalog deleteResult createResult cat img fname h
    obtain ⟨-, hcp⟩ := build_image_ok _ _ _ _ _ _ _ _ _ h
    obtain ⟨-, cleaned, newId, -, -, -, himg, hfname⟩ := cloudPhase_ok _ _ _ _ _ _ _ _ hcp
    subst himg
    exact ⟨rfl, hfname⟩

/-- C3 witness: the arm bucket at a non-x64 input, and a concrete successful
build from the amd64 file under the name "jammy". -/
theorem C3_witness :
    IMAGE_PATH_TMPL_format (archBucket "arm") =
      "jammy-server-cloudimg-arm64-compressed.img" ∧
    ((⟨7, "jammy"⟩ : Image).name = "jammy" ∧
      "jammy-server-cloudimg-amd64-compressed.img" =
        IMAGE_PATH_TMPL_format
          (archBucket (⟨"u", "x64", "f"⟩ : RunnerApplication).architecture)) := by
  constructor
  · exact C3_architecture_mapping.2.1 "arm" (by decide)
  · exact C3_architecture_mapping.2.2.2 ⟨"u", "x64", "f"⟩ (.ok ()) (.ok ()) []
      (fun _ => .ok true) (.ok 7) [⟨7, "jammy"⟩] ⟨7, "jammy"⟩
      "jammy-server-cloudimg-amd64-compressed.img" rfl

/-- C1: `build_image` deletes every catalog image named "jammy" before the
create step; if a deletion reports failure it raises
`ImageBuildError("Failed to delete duplicate image on Openstack.")` whatever
the create outcome would have been, and a successful call leaves at most one
image under the canonical name, every pre-existing duplicate having been
deleted successfully. -/
theorem C1_duplicate_image_handling (app : RunnerApplication)
    (execCmd connOutcome : Except PyErr Unit) (catalog : List Image)
    (deleteResult : Nat → Except PyErr Bool) (createResult : Except PyErr Nat) :
    ((∀ m ∈ search_images catalog IMAGE_NAME,
        deleteResult m.id = .ok true ∨ deleteResult m.id = .ok false) →
      (∃ m ∈ search_images catalog IMAGE_NAME, deleteResult m.id = .ok false) →
      ∀ createResult2 : Except PyErr Nat,
        build_image (.ok app) (.ok ()) (.ok ()) catalog deleteResult createResult2 =
          .error (.imageBuildError "Failed to delete duplicate image on Openstack."
            none)) ∧
    (∀ cat img fname,
      build_image (.ok app) execCmd connOutcome catalog deleteResult createResult =
        .ok (cat, img, fname) →
      (∀ m ∈ search_images catalog IMAGE_NAME, deleteResult m.id = .ok true) ∧
      (search_images cat IMAGE_NAME).length ≤ 1) := by
  constructor
  · intro hall hex createResult2
    have hdel := deleteLoop_fail deleteResult (search_images catalog IMAGE_NAME)
      catalog hall hex
    simp [build_image, cloudPhase, hdel, wrapUploadError]
  · intro cat img fname h
    obtain ⟨-, hcp⟩ := build_image_ok _ _ _ _ _ _ _ _ _ h
    obtain ⟨-, cleaned, newId, hdl, -, hcat, -, -⟩ := cloudPhase_ok _ _ _ _ _ _ _ _ hcp
    obtain ⟨h1, h2⟩ := deleteLoop_ok deleteResult _ _ _ hdl
    refine ⟨h1, ?_⟩
    subst hcat
    have hclean : search_images cleaned IMAGE_NAME = [] := by
      rw [search_images, List.filter_eq_nil_iff]
      intro i hi hcontra
      simp at hcontra
      obtain ⟨hicat, hneq⟩ := h2 i hi
      have himem : i ∈ search_images catalog IMAGE_NAME :=
        List.mem_filter.mpr ⟨hicat, by simp [hcontra]⟩
      exact (hneq i himem) rfl
    rw [search_images] at hclean ⊢
    simp [List.filter_cons, hclean]

/-- C1 witness: a failing deletion aborts a concrete build with the
duplicate-image error; a concrete successful build leaves one "jammy"
image. -/
theorem C1_witness :
    build_image (.ok ⟨"u", "x64", "f"⟩) (.ok ()) (.ok ()) [⟨0, "jammy"⟩]
        (fun _ => .ok false) (.ok 1) =
      .error (.imageBuildError "Failed to delete duplicate image on Openstack." none) ∧
    (search_images [⟨1, "jammy"⟩] IMAGE_NAME).length ≤ 1 := by
  constructor
  · exact (C1_duplicate_image_handling ⟨"u", "x64", "f"⟩ (.ok ()) (.ok ())
      [⟨0, "jammy"⟩] (fun _ => .ok false) (.ok 1)).1
      (fun m _ => Or.inr rfl)
      ⟨⟨0, "jammy"⟩, by decide, rfl⟩
      (.ok 1)
  · exact ((C1_duplicate_image_handling ⟨"u", "x64", "f"⟩ (.ok ()) (.ok ())
      [⟨0, "jammy"⟩] (fun _ => .ok true) (.ok 1)).2
      [⟨1, "jammy"⟩] ⟨1, "jammy"⟩ "jammy-server-cloudimg-amd64-compressed.img" rfl).2

theorem string_mk_toList (s : String) : String.mk s.toList = s := by
  cases s
  rfl

theorem string_mk_append (a b : List Char) :
    String.mk a ++ String.mk b = String.mk (a ++ b) := rfl

theorem rsplitLast_none_iff (sep : Char) :
    ∀ l : List Char, rsplitLast sep l = none ↔ sep ∉ l := by
  intro l
  induction l with
  | nil => simp [rsplitLast]
  | cons c rest ih =>
    constructor
    · intro h
      rcases hr : rsplitLast sep rest with _ | p
      · simp only [rsplitLast, hr] at h
        by_cases hc : c = sep
        · rw [if_pos hc] at h
          exact Option.noConfusion h
        · simp [List.mem_cons, ih.mp hr, Ne.symm hc]
      · obtain ⟨p1, p2⟩ := p
        simp only [rsplitLast, hr] at h
        exact Option.noConfusion h
    · intro h
      have hc : ¬c = sep := fun he => h (by rw [he]; exact List.mem_cons_self ..)
      have hrest : sep ∉ rest := fun hm => h (List.mem_cons_of_mem _ hm)
      rcases hr : rsplitLast sep rest with _ | p
      · simp only [rsplitLast, hr]
        rw [if_neg hc]
      · have hn := ih.mpr hrest
        rw [hr] at hn
        exact Option.noConfusion hn

theorem rsplitLast_some (sep : Char) :
    ∀ (l a b : List Char), rsplitLast sep l = some (a, b) →
      l = a ++ sep :: b ∧ sep ∉ b := by
  intro l
  induction l with
  | nil => intro a b h; exact Option.noConfusion h
  | cons c rest ih =>
    intro a b h
    rcases hr : rsplitLast sep rest with _ | p
    · simp only [rsplitLast, hr] at h
      by_cases hc : c = sep
      · rw [if_pos hc] at h
        rw [Option.some.injEq, Prod.mk.injEq] at h
        obtain ⟨ha, hb⟩ := h
        subst ha
        subst hb
        subst hc
        exact ⟨rfl, (rsplitLast_none_iff c rest).mp hr⟩
      · rw [if_neg hc] at h
        exact Option.noConfusion h
    · obtain ⟨p1, p2⟩ := p
      simp only [rsplitLast, hr] at h
      rw [Option.some.injEq, Prod.mk.injEq] at h
      obtain ⟨ha, hb⟩ := h
      subst ha
      subst hb
      obtain ⟨h1, h2⟩ := ih p1 p2 hr
      exact ⟨by simp [h1], h2⟩

theorem token_hex_length (bytes : List Nat) :
    (token_hex bytes).length = 2 * bytes.length := by
  show (bytes.flatMap fun b => [hexDigit (b % 256 / 16), hexDigit (b % 16)]).length =
    2 * bytes.length
  rw [List.length_flatMap]
  induction bytes with
  | nil => rfl
  | cons b rest ih => simp_all [Nat.mul_succ, Nat.add_comm]

theorem hexDigit_mem_hexChars (n : Nat) (h : n < 16) : hexDigit n ∈ hexChars := by
  interval_cases n <;> decide

theorem token_hex_chars (bytes : List Nat) :
    ∀ c ∈ (token_hex bytes).toList, c ∈ hexChars := by
  intro c hc
  have hc2 : c ∈ bytes.flatMap fun b => [hexDigit (b % 256 / 16), hexDigit (b % 16)] := hc
  rw [List.mem_flatMap] at hc2
  obtain ⟨b, -, hcb⟩ := hc2
  rcases List.mem_cons.mp hcb with rfl | hcb2
  · exact hexDigit_mem_hexChars _ (Nat.div_lt_of_lt_mul (Nat.mod_lt _ (by norm_num)))
  · rcases List.mem_cons.mp hcb2 with rfl | h
    · exact hexDigit_mem_hexChars _ (Nat.mod_lt _ (by norm_num))
    · cases h

/-- C10: for a unit name containing a "/", `create_instance_config` returns a
config whose name is the part before the last "/", a "-", the part after it,
a "-", and the 24-character lowercase-hex suffix, and whose labels are
exactly the application name and "jammy"; for a unit name without "/", it
raises a `ValueError` (not one of the domain error kinds) before consulting
the GitHub client. -/
theorem C10_create_instance_config (unit_name : String) (image : Image)
    (path : String) (randomBytes : List Nat) (tok : String) :
    (∀ a b, rsplit1 '/' unit_name = some (a, b) →
      a ++ "/" ++ b = unit_name ∧ '/' ∉ b.toList ∧
      create_instance_config unit_name image path randomBytes (.ok tok) =
        .ok { name := a ++ "-" ++ b ++ "-" ++ token_hex randomBytes,
              labels := [a, "jammy"],
              registration_token := tok,
              github_path := path,
              openstack_image := image } ∧
      (randomBytes.length = 12 → (token_hex randomBytes).length = 24) ∧
      (∀ c ∈ (token_hex randomBytes).toList, c ∈ hexChars)) ∧
    ('/' ∈ unit_name.toList ↔ ∃ p, rsplit1 '/' unit_name = some p) ∧
    ('/' ∉ unit_name.toList →
      ∀ tokenOutcome : Except PyErr String,
        create_instance_config unit_name image path randomBytes tokenOutcome =
          .error (.base (.valueError "not enough values to unpack (expected 2, got 1)"))) := by
  refine ⟨?_, ?_, ?_⟩
  · intro a b h
    rcases hq : rsplitLast '/' unit_name.toList with _ | q
    · unfold rsplit1 at h
      rw [hq] at h
      exact Option.noConfusion h
    · obtain ⟨q1, q2⟩ := q
      unfold rsplit1 at h
      rw [hq] at h
      rw [Option.map_some', Option.some.injEq, Prod.mk.injEq] at h
      obtain ⟨ha, hb⟩ := h
      subst ha
      subst hb
      obtain ⟨hlist, hnb⟩ := rsplitLast_some '/' unit_name.toList q1 q2 hq
      refine ⟨?_, hnb, ?_, ?_, token_hex_chars randomBytes⟩
      · have h1 : String.mk q1 ++ "/" ++ String.mk q2 = String.mk (q1 ++ '/' :: q2) := by
          rw [show ("/" : String) = String.mk ['/'] from rfl, string_mk_append,
            string_mk_append]
          simp
        rw [h1, ← hlist, string_mk_toList]
      · unfold create_instance_config rsplit1
        rw [hq]
        rfl
      · intro h12
        rw [token_hex_length, h12]
  · constructor
    · intro hmem
      rcases hq : rsplitLast '/' unit_name.toList with _ | q
      · exact absurd hmem ((rsplitLast_none_iff '/' unit_name.toList).mp hq)
      · obtain ⟨q1, q2⟩ := q
        refine ⟨(String.mk q1, String.mk q2), ?_⟩
        unfold rsplit1
        rw [hq]
        rfl
    · rintro ⟨p, hp⟩
      rcases hq : rsplitLast '/' unit_name.toList with _ | q
      · unfold rsplit1 at hp
        rw [hq] at hp
        exact Option.noConfusion hp
      · obtain ⟨q1, q2⟩ := q
        obtain ⟨hlist, -⟩ := rsplitLast_some '/' unit_name.toList q1 q2 hq
        rw [hlist]
        simp
  · intro hno tokenOutcome
    have hq : rsplitLast '/' unit_name.toList = none :=
      (rsplitLast_none_iff '/' unit_name.toList).mpr hno
    unfold create_instance_config rsplit1
    rw [hq]
    rfl

/-- C10 witness: a concrete unit name with and without a slash. -/
theorem C10_witness :
    "app" ++ "/" ++ "0" = "app/0" ∧
    create_instance_config "app/0" ⟨1, "jammy"⟩ "org/repo" (List.replicate 12 0)
        (.ok "tok") =
      .ok { name := "app" ++ "-" ++ "0" ++ "-" ++ token_hex (List.replicate 12 0),
            labels := ["app", "jammy"],
            registration_token := "tok",
            github_path := "org/repo",
            openstack_image := ⟨1, "jammy"⟩ } ∧
    (token_hex (List.replicate 12 0)).length = 24 ∧
    create_instance_config "noslash" ⟨1, "jammy"⟩ "org/repo" (List.replicate 12 0)
        (.ok "tok") =
      .error (.base (.valueError "not enough values to unpack (expected 2, got 1)")) := by
  have h := C10_create_instance_config "app/0" ⟨1, "jammy"⟩ "org/repo"
    (List.replicate 12 0) "tok"
  have h1 := h.1 "app" "0" (by decide)
  have h2 := C10_create_instance_config "noslash" ⟨1, "jammy"⟩ "org/repo"
    (List.replicate 12 0) "tok"
  exact ⟨h1.1, h1.2.2.1, h1.2.2.2.1 (by decide), h2.2.2 (by decide) (.ok "tok")⟩

theorem create_instance_once_conn_err (u : String) (e : PyErr)
    (createServer : String → Except PyErr Nat)
    (hne : ∀ m, e ≠ .base (.openStackCloud m)) :
    create_instance_once (.ok u) (.error e) createServer = .error e := by
  cases e with
  | base b => cases b <;> first | rfl | exact absurd rfl (hne _)
  | imageBuildError m c => rfl
  | instanceLaunchError m c => rfl
  | openStackUnauthorizedError m c => rfl

theorem create_instance_once_server_err (u : String) (e : PyErr)
    (createServer : String → Except PyErr Nat)
    (hcs : createServer u = .error e)
    (hne : ∀ m, e ≠ .base (.openStackCloud m)) :
    create_instance_once (.ok u) (.ok ()) createServer = .error e := by
  cases e with
  | base b =>
    cases b <;>
      first
      | (simp [create_instance_once, hcs]; done)
      | exact absurd rfl (hne _)
  | imageBuildError m c => simp [create_instance_once, hcs]
  | instanceLaunchError m c => simp [create_instance_once, hcs]
  | openStackUnauthorizedError m c => simp [create_instance_once, hcs]

theorem create_instance_once_server_cloud (u m : String)
    (createServer : String → Except PyErr Nat)
    (hcs : createServer u = .error (.base (.openStackCloud m))) :
    create_instance_once (.ok u) (.ok ()) createServer =
      .error (.instanceLaunchError "Failed to launch instance."
        (some (.openStackCloud m))) := by
  simp [create_instance_once, hcs]

/-- C6: `create_instance` raises
`InstanceLaunchError("Failed to launch instance.")` exactly when an
`OpenStackCloudException` occurs while opening the connection or creating
the server, with the original exception preserved as the cause; a failure of
the template rendering propagates unmodified, never wrapped into
`InstanceLaunchError`. -/
theorem C6_instance_launch_wrapping (render : Except PyErr String)
    (connOutcome : Except PyErr Unit) (createServer : String → Except PyErr Nat) :
    (∀ e, render = .error e →
      create_instance_once render connOutcome createServer = .error e) ∧
    (∀ u, render = .ok u →
      (∀ m, connOutcome = .error (.base (.openStackCloud m)) →
        create_instance_once render connOutcome createServer =
          .error (.instanceLaunchError "Failed to launch instance."
            (some (.openStackCloud m)))) ∧
      (∀ m, connOutcome = .ok () →
        createServer u = .error (.base (.openStackCloud m)) →
        create_instance_once render connOutcome createServer =
          .error (.instanceLaunchError "Failed to launch instance."
            (some (.openStackCloud m)))) ∧
      ((∀ msg c, connOutcome ≠ .error (.instanceLaunchError msg c)) →
       (∀ msg c, createServer u ≠ .error (.instanceLaunchError msg c)) →
       ∀ msg c, create_instance_once render connOutcome createServer =
           .error (.instanceLaunchError msg c) →
         msg = "Failed to launch instance." ∧
         ∃ m, c = some (.openStackCloud m) ∧
           (connOutcome = .error (.base (.openStackCloud m)) ∨
            (connOutcome = .ok () ∧
             createServer u = .error (.base (.openStackCloud m))))) ∧
      (∀ e, connOutcome = .error e → (∀ m, e ≠ .base (.openStackCloud m)) →
        create_instance_once render connOutcome createServer = .error e) ∧
      (∀ e, connOutcome = .ok () → createServer u = .error e →
        (∀ m, e ≠ .base (.openStackCloud m)) →
        create_instance_once render connOutcome createServer = .error e)) := by
  constructor
  · intro e he
    rw [he]
    rfl
  · intro u hu
    subst hu
    refine ⟨?_, ?_, ?_, ?_, ?_⟩
    · intro m hc
      rw [hc]
      rfl
    · intro m hc hs
      rw [hc]
      exact create_instance_once_server_cloud u m createServer hs
    · intro hnc hns msg c h
      rcases hco : connOutcome with e | uu
      · subst hco
        by_cases hcloud : ∃ m, e = .base (.openStackCloud m)
        · obtain ⟨m, rfl⟩ := hcloud
          rw [show create_instance_once (.ok u)
              (.error (.base (.openStackCloud m))) createServer =
              .error (.instanceLaunchError "Failed to launch instance."
                (some (.openStackCloud m))) from rfl] at h
          rw [Except.error.injEq, PyErr.instanceLaunchError.injEq] at h
          exact ⟨h.1.symm, m, h.2.symm, Or.inl rfl⟩
        · rw [create_instance_once_conn_err u e createServer
            (fun m hm => hcloud ⟨m, hm⟩)] at h
          rw [Except.error.injEq] at h
          exact absurd (by rw [h]) (hnc msg c)
      · cases uu
        subst hco
        rcases hcs : createServer u with e | v
        · by_cases hcloud : ∃ m, e = .base (.openStackCloud m)
          · obtain ⟨m, rfl⟩ := hcloud
            rw [create_instance_once_server_cloud u m createServer hcs] at h
            rw [Except.error.injEq, PyErr.instanceLaunchError.injEq] at h
            exact ⟨h.1.symm, m, h.2.symm, Or.inr ⟨rfl, rfl⟩⟩
          · rw [create_instance_once_server_err u e createServer hcs
              (fun m hm => hcloud ⟨m, hm⟩)] at h
            rw [Except.error.injEq] at h
            exact absurd (hcs.trans (by rw [h])) (hns msg c)
        · have hok : create_instance_once (.ok u) (.ok ()) createServer = .ok v := by
            simp [create_instance_once, hcs]
          rw [hok] at h
          exact Except.noConfusion h
    · intro e hc hne
      rw [hc]
      exact create_instance_once_conn_err u e createServer hne
    · intro e hc hs hne
      rw [hc]
      exact create_instance_once_server_err u e createServer hs hne

/-- C6 witness: a cloud-side failure when creating the server is wrapped
with its cause, and a template failure propagates unmodified. -/
theorem C6_witness :
    create_instance_once (.ok "userdata") (.ok ())
        (fun _ => .error (.base (.openStackCloud "quota exceeded"))) =
      .error (.instanceLaunchError "Failed to launch instance."
        (some (.openStackCloud "quota exceeded"))) ∧
    create_instance_once (.error (.base (.templateError "env.j2 missing")))
        (.ok ()) (fun _ => .ok 3) =
      .error (.base (.templateError "env.j2 missing")) := by
  constructor
  · exact ((C6_instance_launch_wrapping (.ok "userdata") (.ok ())
      (fun _ => .error (.base (.openStackCloud "quota exceeded")))).2 "userdata"
      rfl).2.1 "quota exceeded" rfl rfl
  · exact (C6_instance_launch_wrapping (.error (.base (.templateError "env.j2 missing")))
      (.ok ()) (fun _ => .ok 3)).1 _ rfl

/-- C5 counterexample: in `build_image` — an entry point that opens a cloud
connection — an authorization failure (`keystoneauth` Unauthorized raised by
the delete call) propagates unmodified and is not surfaced as
`OpenStackUnauthorizedError`, so the mapping does not hold for every entry
point that opens a cloud connection. -/
theorem C5_counterexample :
    build_image (.ok ⟨"u", "x64", "f"⟩) (.ok ()) (.ok ()) [⟨0, "jammy"⟩]
        (fun _ => .error (.base .keystoneUnauthorized)) (.ok 1) =
      .error (.base .keystoneUnauthorized) ∧
    isUnauthorizedErr (.base .keystoneUnauthorized) = false := ⟨rfl, rfl⟩

/-- C5 (amended): the connection resolver selects the first-listed cloud
profile, logging a warning (not failing) exactly when more than one profile
is configured; the `list_projects` entry point maps an authorization failure
of the underlying call to `OpenStackUnauthorizedError` (surfaced, with the
cause kept, and not retried); the other entry points perform no such
mapping — there an authorization failure propagates unmodified. -/
theorem C5_amended_connection_resolver (clouds : List String)
    (connect : String → Except PyErr Unit)
    (projectsOutcome : Except PyErr (List String)) :
    (∀ c cs, clouds = c :: cs →
      _create_connection clouds connect = connect c ∧
      _create_connection_cloud_name clouds = some c) ∧
    (_create_connection_warns clouds = true ↔ 1 < clouds.length) ∧
    (∀ c cs, clouds = c :: cs → connect c = .ok () →
      projectsOutcome = .error (.base .keystoneUnauthorized) →
      list_projects clouds connect projectsOutcome =
        .error (.openStackUnauthorizedError "Unauthorized to connect to OpenStack."
          (some .keystoneUnauthorized))) ∧
    (∀ (app : RunnerApplication) (catalog : List Image)
        (deleteResult : Nat → Except PyErr Bool) (createResult : Except PyErr Nat),
      build_image (.ok app) (.ok ()) (.error (.base .keystoneUnauthorized)) catalog
          deleteResult createResult =
        .error (.base .keystoneUnauthorized)) ∧
    (∀ (u : String) (createServer : String → Except PyErr Nat),
      create_instance_once (.ok u) (.error (.base .keystoneUnauthorized))
          createServer =
        .error (.base .keystoneUnauthorized)) := by
  refine ⟨?_, ?_, ?_, ?_, ?_⟩
  · intro c cs hc
    subst hc
    exact ⟨rfl, rfl⟩
  · simp [_create_connection_warns]
  · intro c cs hc hconn hproj
    subst hc
    simp [list_projects, _create_connection, hconn, hproj]
  · intro app catalog deleteResult createResult
    rfl
  · intro u createServer
    rfl

/-- C5 witness: the first of two profiles is used (with the ambiguity
warning), and an unauthorized `list_projects` call surfaces
`OpenStackUnauthorizedError`. -/
theorem C5_witness :
    _create_connection ["alpha", "beta"] (fun _ => .ok ()) = .ok () ∧
    _create_connection_warns ["alpha", "beta"] = true ∧
    list_projects ["alpha"] (fun _ => .ok ()) (.error (.base .keystoneUnauthorized)) =
      .error (.openStackUnauthorizedError "Unauthorized to connect to OpenStack."
        (some .keystoneUnauthorized)) := by
  refine ⟨((C5_amended_connection_resolver ["alpha", "beta"] (fun _ => .ok ())
      (.ok [])).1 "alpha" ["beta"] rfl).1, ?_, ?_⟩
  · exact (C5_amended_connection_resolver ["alpha", "beta"] (fun _ => .ok ())
      (.ok [])).2.1.mpr (by norm_num)
  · exact (C5_amended_connection_resolver ["alpha"] (fun _ => .ok ())
      (.error (.base .keystoneUnauthorized))).2.2.1 "alpha" [] rfl rfl rfl

theorem retryGo_zero (delay maxDelay backoff : Nat) (body : Nat → Except PyErr Nat)
    (attempt : Nat) :
    retryGo delay maxDelay backoff body attempt 0 =
      (.error (.base (.otherError "no attempt made")), []) := rfl

theorem retryGo_one (delay maxDelay backoff : Nat) (body : Nat → Except PyErr Nat)
    (attempt : Nat) :
    retryGo delay maxDelay backoff body attempt 1 = (body attempt, []) := rfl

theorem retryGo_step (delay maxDelay backoff : Nat) (body : Nat → Except PyErr Nat)
    (attempt f : Nat) :
    retryGo delay maxDelay backoff body attempt (f + 2) =
      (match body attempt with
       | .ok a => (.ok a, [])
       | .error _ =>
         ((retryGo delay maxDelay backoff body (attempt + 1) (f + 1)).1,
          min (delay * backoff ^ (attempt - 1)) maxDelay ::
            (retryGo delay maxDelay backoff body (attempt + 1) (f + 1)).2)) := rfl

theorem retryGo_step_ok (delay maxDelay backoff : Nat) (body : Nat → Except PyErr Nat)
    (attempt f : Nat) (a : Nat) (hb : body attempt = .ok a) :
    retryGo delay maxDelay backoff body attempt (f + 2) = (.ok a, []) := by
  rw [retryGo_step, hb]

theorem retryGo_step_err (delay maxDelay backoff : Nat) (body : Nat → Except PyErr Nat)
    (attempt f : Nat) (e : PyErr) (hb : body attempt = .error e) :
    retryGo delay maxDelay backoff body attempt (f + 2) =
      ((retryGo delay maxDelay backoff body (attempt + 1) (f + 1)).1,
       min (delay * backoff ^ (attempt - 1)) maxDelay ::
         (retryGo delay maxDelay backoff body (attempt + 1) (f + 1)).2) := by
  rw [retryGo_step, hb]

theorem retryGo_sleeps (delay maxDelay backoff : Nat) (body : Nat → Except PyErr Nat) :
    ∀ (fuel attempt : Nat), 1 ≤ attempt →
    ∃ n, (retryGo delay maxDelay backoff body attempt fuel).2 =
      (List.range n).map (fun i => min (delay * backoff ^ (attempt - 1 + i)) maxDelay) := by
  intro fuel
  induction fuel with
  | zero => intro attempt _; exact ⟨0, rfl⟩
  | succ f ih =>
    intro attempt hatt
    cases f with
    | zero => exact ⟨0, rfl⟩
    | succ f2 =>
      rcases hb : body attempt with e | a
      · obtain ⟨n, hn⟩ := ih (attempt + 1) (by omega)
        refine ⟨n + 1, ?_⟩
        rw [retryGo_step_err delay maxDelay backoff body attempt f2 e hb]
        rw [List.range_succ_eq_map, List.map_cons, List.map_map]
        rw [hn]
        dsimp only
        rw [List.cons.injEq]
        constructor
        · norm_num
        · apply List.map_congr_left
          intro i hi
          have h3 : attempt + 1 - 1 + i = attempt - 1 + (i + 1) := by omega
          simp only [Function.comp_apply, Nat.succ_eq_add_one, h3]
      · exact ⟨0, by rw [retryGo_step_ok delay maxDelay backoff body attempt f2 a hb]; rfl⟩

/-- C2: `create_instance` is wrapped by the retry policy with exactly 5
attempts: if the body fails on every attempt, the fifth attempt's error is
re-raised unmodified after exactly five failed attempts and four sleeps; if
the body first succeeds on attempt k ≤ 5 its result is returned; the sleep
before re-attempt k+1 is min(5·2^(k-1), 60), a non-decreasing sequence
capped at 60 seconds. -/
theorem C2_retry_policy (body : Nat → Except PyErr Nat) :
    (∀ e1 e2 e3 e4 e5,
      body 1 = .error e1 → body 2 = .error e2 → body 3 = .error e3 →
      body 4 = .error e4 → body 5 = .error e5 →
      create_instance_retried body = (.error e5, [5, 10, 20, 40])) ∧
    (∀ k a, 1 ≤ k → k ≤ 5 →
      (∀ j, 1 ≤ j → j < k → ∃ e, body j = .error e) →
      body k = .ok a →
      (create_instance_retried body).1 = .ok a) ∧
    ((create_instance_retried body).2 =
      (List.range (create_instance_retried body).2.length).map
        (fun i => min (5 * 2 ^ i) 60)) ∧
    List.Chain' (· ≤ ·) (create_instance_retried body).2 ∧
    (∀ s ∈ (create_instance_retried body).2, s ≤ 60) := by
  obtain ⟨n, hn⟩ := retryGo_sleeps 5 60 2 body 5 1 (le_refl 1)
  have hn2 : (create_instance_retried body).2 =
      (List.range n).map (fun i => min (5 * 2 ^ i) 60) := by
    show (retryGo 5 60 2 body 1 5).2 = _
    rw [hn]
    apply List.map_congr_left
    intro i _
    norm_num
  refine ⟨?_, ?_, ?_, ?_, ?_⟩
  · intro e1 e2 e3 e4 e5 h1 h2 h3 h4 h5
    show retryGo 5 60 2 body 1 5 = (.error e5, [5, 10, 20, 40])
    have s1 : retryGo 5 60 2 body 1 5 =
        ((retryGo 5 60 2 body 2 4).1, 5 :: (retryGo 5 60 2 body 2 4).2) :=
      retryGo_step_err 5 60 2 body 1 3 e1 h1
    have s2 : retryGo 5 60 2 body 2 4 =
        ((retryGo 5 60 2 body 3 3).1, 10 :: (retryGo 5 60 2 body 3 3).2) :=
      retryGo_step_err 5 60 2 body 2 2 e2 h2
    have s3 : retryGo 5 60 2 body 3 3 =
        ((retryGo 5 60 2 body 4 2).1, 20 :: (retryGo 5 60 2 body 4 2).2) :=
      retryGo_step_err 5 60 2 body 3 1 e3 h3
    have s4 : retryGo 5 60 2 body 4 2 =
        ((retryGo 5 60 2 body 5 1).1, 40 :: (retryGo 5 60 2 body 5 1).2) :=
      retryGo_step_err 5 60 2 body 4 0 e4 h4
    have s5 : retryGo 5 60 2 body 5 1 = (.error e5, []) := by
      rw [retryGo_one, h5]
    rw [s1, s2, s3, s4, s5]
  · intro k a hk1 hk5 hfail hb
    show (retryGo 5 60 2 body 1 5).1 = .ok a
    interval_cases k
    · rw [retryGo_step_ok 5 60 2 body 1 3 a hb]
    · obtain ⟨e1, h1⟩ := hfail 1 (by norm_num) (by norm_num)
      rw [retryGo_step_err 5 60 2 body 1 3 e1 h1]
      show (retryGo 5 60 2 body 2 4).1 = .ok a
      rw [retryGo_step_ok 5 60 2 body 2 2 a hb]
    · obtain ⟨e1, h1⟩ := hfail 1 (by norm_num) (by norm_num)
      obtain ⟨e2, h2⟩ := hfail 2 (by norm_num) (by norm_num)
      rw [retryGo_step_err 5 60 2 body 1 3 e1 h1]
      show (retryGo 5 60 2 body 2 4).1 = .ok a
      rw [retryGo_step_err 5 60 2 body 2 2 e2 h2]
      show (retryGo 5 60 2 body 3 3).1 = .ok a
      rw [retryGo_step_ok 5 60 2 body 3 1 a hb]
    · obtain ⟨e1, h1⟩ := hfail 1 (by norm_num) (by norm_num)
      obtain ⟨e2, h2⟩ := hfail 2 (by norm_num) (by norm_num)
      obtain ⟨e3, h3⟩ := hfail 3 (by norm_num) (by norm_num)
      rw [retryGo_step_err 5 60 2 body 1 3 e1 h1]
      show (retryGo 5 60 2 body 2 4).1 = .ok a
      rw [retryGo_step_err 5 60 2 body 2 2 e2 h2]
      show (retryGo 5 60 2 body 3 3).1 = .ok a
      rw [retryGo_step_err 5 60 2 body 3 1 e3 h3]
      show (retryGo 5 60 2 body 4 2).1 = .ok a
      rw [retryGo_step_ok 5 60 2 body 4 0 a hb]
    · obtain ⟨e1, h1⟩ := hfail 1 (by norm_num) (by norm_num)
      obtain ⟨e2, h2⟩ := hfail 2 (by norm_num) (by norm_num)
      obtain ⟨e3, h3⟩ := hfail 3 (by norm_num) (by norm_num)
      obtain ⟨e4, h4⟩ := hfail 4 (by norm_num) (by norm_num)
      rw [retryGo_step_err 5 60 2 body 1 3 e1 h1]
      show (retryGo 5 60 2 body 2 4).1 = .ok a
      rw [retryGo_step_err 5 60 2 body 2 2 e2 h2]
      show (retryGo 5 60 2 body 3 3).1 = .ok a
      rw [retryGo_step_err 5 60 2 body 3 1 e3 h3]
      show (retryGo 5 60 2 body 4 2).1 = .ok a
      rw [retryGo_step_err 5 60 2 body 4 0 e4 h4]
      show (retryGo 5 60 2 body 5 1).1 = .ok a
      rw [retryGo_one, hb]
  · rw [hn2]
    simp
  · rw [hn2]
    exact List.Pairwise.chain'
      (List.Pairwise.map _
        (fun a b hab =>
          min_le_min
            (Nat.mul_le_mul (le_refl 5) (Nat.pow_le_pow_right (by norm_num) hab.le))
            (le_refl 60))
        (List.pairwise_lt_range n))
  · intro s hs
    rw [hn2] at hs
    obtain ⟨i, -, rfl⟩ := List.mem_map.mp hs
    exact min_le_right _ _

/-- C2 witness: a body failing on every attempt exhausts exactly five
attempts with the capped sleep sequence and re-raises the last error. -/
theorem C2_witness :
    create_instance_retried (fun _ => .error (.base (.openStackCloud "boom"))) =
      (.error (.base (.openStackCloud "boom")), [5, 10, 20, 40]) :=
  (C2_retry_policy _).1 _ _ _ _ _ rfl rfl rfl rfl rfl

end OpenstackManager
